/-
Verification of the rmkit chip registry and build/package pipeline.

This file gives a shallow embedding of the Rust sources of the rmkit
repository (`chips/src/lib.rs`, `rmkit/src/keyboard_toml.rs`,
`rmkit/src/cargo_build.rs`, `rmkit/src/cargo_objcopy.rs`,
`rmkit/src/rmk_build.rs`) and proves properties of the embedded
definitions.  External processes (cargo, llvm-objcopy, the uf2 packager,
the filesystem) are modelled by explicit parameters for their outcomes
and by effect traces recording each invocation.
-/
import Mathlib

inductive Chip where
  | AT32F415
  | ATMEGA32
  | BK7231N
  | BK7231U
  | BK7251
  | BL602
  | CH32V
  | CSK4
  | CSK6
  | ESP32
  | ESP32C2
  | ESP32C3
  | ESP32C5
  | ESP32C6
  | ESP32C61
  | ESP32H2
  | ESP32P4
  | ESP32S2
  | ESP32S3
  | ESP8266
  | FX2
  | GD32F350
  | GD32VF103
  | KL32L2
  | LPC55
  | M0SENSE
  | MIMXRT10XX
  | MaixPlayU4
  | NRF52
  | NRF52832xxAA
  | NRF52832xxAB
  | NRF52833
  | NRF52840
  | RA4M1
  | RP2040
  | Rp2350ArmNs
  | Rp2350ArmS
  | Rp2350Riscv
  | Rp2xxxAbsolute
  | Rp2xxxData
  | RTL8710A
  | RTL8710B
  | RTL8720C
  | RTL8720D
  | RZA1LU
  | SAMD21
  | SAMD51
  | SAML21
  | STM32F0
  | STM32F1
  | STM32F2
  | STM32F3
  | STM32F4
  | STM32F407
  | STM32F407VG
  | STM32F411xC
  | STM32F411xE
  | STM32F7
  | STM32G0
  | STM32G4
  | STM32H7
  | STM32L0
  | STM32L1
  | STM32L4
  | STM32L5
  | STM32WB
  | STM32WL
  | XR809
deriving DecidableEq, Repr

/-- The enumeration order of `Chip` (the `EnumIter` derive / `CHIP_VARIANTS`). -/
def chip_variants : List Chip :=
  [.AT32F415, .ATMEGA32, .BK7231N, .BK7231U, .BK7251, .BL602, .CH32V, .CSK4, .CSK6, .ESP32, .ESP32C2, .ESP32C3, .ESP32C5, .ESP32C6, .ESP32C61, .ESP32H2, .ESP32P4, .ESP32S2, .ESP32S3, .ESP8266, .FX2, .GD32F350, .GD32VF103, .KL32L2, .LPC55, .M0SENSE, .MIMXRT10XX, .MaixPlayU4, .NRF52, .NRF52832xxAA, .NRF52832xxAB, .NRF52833, .NRF52840, .RA4M1, .RP2040, .Rp2350ArmNs, .Rp2350ArmS, .Rp2350Riscv, .Rp2xxxAbsolute, .Rp2xxxData, .RTL8710A, .RTL8710B, .RTL8720C, .RTL8720D, .RZA1LU, .SAMD21, .SAMD51, .SAML21, .STM32F0, .STM32F1, .STM32F2, .STM32F3, .STM32F4, .STM32F407, .STM32F407VG, .STM32F411xC, .STM32F411xE, .STM32F7, .STM32G0, .STM32G4, .STM32H7, .STM32L0, .STM32L1, .STM32L4, .STM32L5, .STM32WB, .STM32WL, .XR809]

inductive Board where
  | NrfMicro
  | BlueMicro840
  | PuchiBle
  | NiceNano
  | NiceNanoV2
  | XiaoBle
  | Liatris
  | EliteC
  | ProMicro
deriving DecidableEq, Repr

/-- `Display for Chip`: serde serialization with rename_all = lowercase, quotes trimmed. -/
def Chip.display : Chip → String
  | .AT32F415 => "at32f415"
  | .ATMEGA32 => "atmega32"
  | .BK7231N => "bk7231n"
  | .BK7231U => "bk7231u"
  | .BK7251 => "bk7251"
  | .BL602 => "bl602"
  | .CH32V => "ch32v"
  | .CSK4 => "csk4"
  | .CSK6 => "csk6"
  | .ESP32 => "esp32"
  | .ESP32C2 => "esp32c2"
  | .ESP32C3 => "esp32c3"
  | .ESP32C5 => "esp32c5"
  | .ESP32C6 => "esp32c6"
  | .ESP32C61 => "esp32c61"
  | .ESP32H2 => "esp32h2"
  | .ESP32P4 => "esp32p4"
  | .ESP32S2 => "esp32s2"
  | .ESP32S3 => "esp32s3"
  | .ESP8266 => "esp8266"
  | .FX2 => "fx2"
  | .GD32F350 => "gd32f350"
  | .GD32VF103 => "gd32vf103"
  | .KL32L2 => "kl32l2"
  | .LPC55 => "lpc55"
  | .M0SENSE => "m0sense"
  | .MIMXRT10XX => "mimxrt10xx"
  | .MaixPlayU4 => "maixplayu4"
  | .NRF52 => "nrf52"
  | .NRF52832xxAA => "nrf52832xxaa"
  | .NRF52832xxAB => "nrf52832xxab"
  | .NRF52833 => "nrf52833"
  | .NRF52840 => "nrf52840"
  | .RA4M1 => "ra4m1"
  | .RP2040 => "rp2040"
  | .Rp2350ArmNs => "rp2350armns"
  | .Rp2350ArmS => "rp2350arms"
  | .Rp2350Riscv => "rp2350riscv"
  | .Rp2xxxAbsolute => "rp2xxxabsolute"
  | .Rp2xxxData => "rp2xxxdata"
  | .RTL8710A => "rtl8710a"
  | .RTL8710B => "rtl8710b"
  | .RTL8720C => "rtl8720c"
  | .RTL8720D => "rtl8720d"
  | .RZA1LU => "rza1lu"
  | .SAMD21 => "samd21"
  | .SAMD51 => "samd51"
  | .SAML21 => "saml21"
  | .STM32F0 => "stm32f0"
  | .STM32F1 => "stm32f1"
  | .STM32F2 => "stm32f2"
  | .STM32F3 => "stm32f3"
  | .STM32F4 => "stm32f4"
  | .STM32F407 => "stm32f407"
  | .STM32F407VG => "stm32f407vg"
  | .STM32F411xC => "stm32f411xc"
  | .STM32F411xE => "stm32f411xe"
  | .STM32F7 => "stm32f7"
  | .STM32G0 => "stm32g0"
  | .STM32G4 => "stm32g4"
  | .STM32H7 => "stm32h7"
  | .STM32L0 => "stm32l0"
  | .STM32L1 => "stm32l1"
  | .STM32L4 => "stm32l4"
  | .STM32L5 => "stm32l5"
  | .STM32WB => "stm32wb"
  | .STM32WL => "stm32wl"
  | .XR809 => "xr809"

/-- `Chip: FromStr` from the EnumString derive with serialize_all = lowercase. -/
def Chip.from_str : String → Option Chip
  | "at32f415" => some .AT32F415
  | "atmega32" => some .ATMEGA32
  | "bk7231n" => some .BK7231N
  | "bk7231u" => some .BK7231U
  | "bk7251" => some .BK7251
  | "bl602" => some .BL602
  | "ch32v" => some .CH32V
  | "csk4" => some .CSK4
  | "csk6" => some .CSK6
  | "esp32" => some .ESP32
  | "esp32c2" => some .ESP32C2
  | "esp32c3" => some .ESP32C3
  | "esp32c5" => some .ESP32C5
  | "esp32c6" => some .ESP32C6
  | "esp32c61" => some .ESP32C61
  | "esp32h2" => some .ESP32H2
  | "esp32p4" => some .ESP32P4
  | "esp32s2" => some .ESP32S2
  | "esp32s3" => some .ESP32S3
  | "esp8266" => some .ESP8266
  | "fx2" => some .FX2
  | "gd32f350" => some .GD32F350
  | "gd32vf103" => some .GD32VF103
  | "kl32l2" => some .KL32L2
  | "lpc55" => some .LPC55
  | "m0sense" => some .M0SENSE
  | "mimxrt10xx" => some .MIMXRT10XX
  | "maixplayu4" => some .MaixPlayU4
  | "nrf52" => some .NRF52
  | "nrf52832xxaa" => some .NRF52832xxAA
  | "nrf52832xxab" => some .NRF52832xxAB
  | "nrf52833" => some .NRF52833
  | "nrf52840" => some .NRF52840
  | "ra4m1" => some .RA4M1
  | "rp2040" => some .RP2040
  | "rp2350armns" => some .Rp2350ArmNs
  | "rp2350arms" => some .Rp2350ArmS
  | "rp2350riscv" => some .Rp2350Riscv
  | "rp2xxxabsolute" => some .Rp2xxxAbsolute
  | "rp2xxxdata" => some .Rp2xxxData
  | "rtl8710a" => some .RTL8710A
  | "rtl8710b" => some .RTL8710B
  | "rtl8720c" => some .RTL8720C
  | "rtl8720d" => some .RTL8720D
  | "rza1lu" => some .RZA1LU
  | "samd21" => some .SAMD21
  | "samd51" => some .SAMD51
  | "saml21" => some .SAML21
  | "stm32f0" => some .STM32F0
  | "stm32f1" => some .STM32F1
  | "stm32f2" => some .STM32F2
  | "stm32f3" => some .STM32F3
  | "stm32f4" => some .STM32F4
  | "stm32f407" => some .STM32F407
  | "stm32f407vg" => some .STM32F407VG
  | "stm32f411xc" => some .STM32F411xC
  | "stm32f411xe" => some .STM32F411xE
  | "stm32f7" => some .STM32F7
  | "stm32g0" => some .STM32G0
  | "stm32g4" => some .STM32G4
  | "stm32h7" => some .STM32H7
  | "stm32l0" => some .STM32L0
  | "stm32l1" => some .STM32L1
  | "stm32l4" => some .STM32L4
  | "stm32l5" => some .STM32L5
  | "stm32wb" => some .STM32WB
  | "stm32wl" => some .STM32WL
  | "xr809" => some .XR809
  | _ => none

/-- Rust Debug formatting of a `Chip` value (the variant name). -/
def Chip.debug : Chip → String
  | .AT32F415 => "AT32F415"
  | .ATMEGA32 => "ATMEGA32"
  | .BK7231N => "BK7231N"
  | .BK7231U => "BK7231U"
  | .BK7251 => "BK7251"
  | .BL602 => "BL602"
  | .CH32V => "CH32V"
  | .CSK4 => "CSK4"
  | .CSK6 => "CSK6"
  | .ESP32 => "ESP32"
  | .ESP32C2 => "ESP32C2"
  | .ESP32C3 => "ESP32C3"
  | .ESP32C5 => "ESP32C5"
  | .ESP32C6 => "ESP32C6"
  | .ESP32C61 => "ESP32C61"
  | .ESP32H2 => "ESP32H2"
  | .ESP32P4 => "ESP32P4"
  | .ESP32S2 => "ESP32S2"
  | .ESP32S3 => "ESP32S3"
  | .ESP8266 => "ESP8266"
  | .FX2 => "FX2"
  | .GD32F350 => "GD32F350"
  | .GD32VF103 => "GD32VF103"
  | .KL32L2 => "KL32L2"
  | .LPC55 => "LPC55"
  | .M0SENSE => "M0SENSE"
  | .MIMXRT10XX => "MIMXRT10XX"
  | .MaixPlayU4 => "MaixPlayU4"
  | .NRF52 => "NRF52"
  | .NRF52832xxAA => "NRF52832xxAA"
  | .NRF52832xxAB => "NRF52832xxAB"
  | .NRF52833 => "NRF52833"
  | .NRF52840 => "NRF52840"
  | .RA4M1 => "RA4M1"
  | .RP2040 => "RP2040"
  | .Rp2350ArmNs => "Rp2350ArmNs"
  | .Rp2350ArmS => "Rp2350ArmS"
  | .Rp2350Riscv => "Rp2350Riscv"
  | .Rp2xxxAbsolute => "Rp2xxxAbsolute"
  | .Rp2xxxData => "Rp2xxxData"
  | .RTL8710A => "RTL8710A"
  | .RTL8710B => "RTL8710B"
  | .RTL8720C => "RTL8720C"
  | .RTL8720D => "RTL8720D"
  | .RZA1LU => "RZA1LU"
  | .SAMD21 => "SAMD21"
  | .SAMD51 => "SAMD51"
  | .SAML21 => "SAML21"
  | .STM32F0 => "STM32F0"
  | .STM32F1 => "STM32F1"
  | .STM32F2 => "STM32F2"
  | .STM32F3 => "STM32F3"
  | .STM32F4 => "STM32F4"
  | .STM32F407 => "STM32F407"
  | .STM32F407VG => "STM32F407VG"
  | .STM32F411xC => "STM32F411xC"
  | .STM32F411xE => "STM32F411xE"
  | .STM32F7 => "STM32F7"
  | .STM32G0 => "STM32G0"
  | .STM32G4 => "STM32G4"
  | .STM32H7 => "STM32H7"
  | .STM32L0 => "STM32L0"
  | .STM32L1 => "STM32L1"
  | .STM32L4 => "STM32L4"
  | .STM32L5 => "STM32L5"
  | .STM32WB => "STM32WB"
  | .STM32WL => "STM32WL"
  | .XR809 => "XR809"

/-- Rust Debug formatting of a `Board` value (the variant name). -/
def Board.debug : Board → String
  | .NrfMicro => "NrfMicro"
  | .BlueMicro840 => "BlueMicro840"
  | .PuchiBle => "PuchiBle"
  | .NiceNano => "NiceNano"
  | .NiceNanoV2 => "NiceNanoV2"
  | .XiaoBle => "XiaoBle"
  | .Liatris => "Liatris"
  | .EliteC => "EliteC"
  | .ProMicro => "ProMicro"

/-- The firmware container formats (`FirmwareFormat` in `chips/src/lib.rs`). -/
inductive FirmwareFormat where
  | Bin
  | Elf
  | Hex
  | Uf2
deriving DecidableEq, Repr

/-- Registry metadata for one chip family (`ChipInfo` in `chips/src/lib.rs`). -/
structure ChipInfo where
  family_id : Nat
  name : String
  firmware_formats : List FirmwareFormat
  split_support : Bool
  chip : Chip
deriving DecidableEq, Repr

/-- `get_chip`: the board-to-chip mapping in `chips/src/lib.rs`. -/
def get_chip : Board → Chip
  | .NrfMicro | .BlueMicro840 | .PuchiBle | .NiceNano | .NiceNanoV2 | .XiaoBle => .NRF52840
  | .Liatris => .RP2040
  | .EliteC | .ProMicro => .ATMEGA32

/-- `get_info`: the chip registry table, one entry per chip family. -/
def get_info : Chip → ChipInfo
  | .AT32F415 =>
    ⟨0xa0c97b8e, Chip.display .AT32F415, [], false, .AT32F415⟩
  | .ATMEGA32 =>
    ⟨0x16573617, Chip.display .ATMEGA32, [], false, .ATMEGA32⟩
  | .BK7231N =>
    ⟨0x7b3ef230, Chip.display .BK7231N, [], false, .BK7231N⟩
  | .BK7231U =>
    ⟨0x675a40b0, Chip.display .BK7231U, [], false, .BK7231U⟩
  | .BK7251 =>
    ⟨0x6a82cc42, Chip.display .BK7251, [], false, .BK7251⟩
  | .BL602 =>
    ⟨0xde1270b7, Chip.display .BL602, [], false, .BL602⟩
  | .CH32V =>
    ⟨0x699b62ec, Chip.display .CH32V, [], false, .CH32V⟩
  | .CSK4 =>
    ⟨0x4f6ace52, Chip.display .CSK4, [], false, .CSK4⟩
  | .CSK6 =>
    ⟨0x6e7348a8, Chip.display .CSK6, [], false, .CSK6⟩
  | .ESP32 =>
    ⟨0x1c5f21b0, Chip.display .ESP32, [], false, .ESP32⟩
  | .ESP32C2 =>
    ⟨0x2b88d29c, Chip.display .ESP32C2, [], false, .ESP32C2⟩
  | .ESP32C3 =>
    ⟨0xd42ba06c, Chip.display .ESP32C3, [], false, .ESP32C3⟩
  | .ESP32C5 =>
    ⟨0xf71c0343, Chip.display .ESP32C5, [], false, .ESP32C5⟩
  | .ESP32C6 =>
    ⟨0x540ddf62, Chip.display .ESP32C6, [], false, .ESP32C6⟩
  | .ESP32C61 =>
    ⟨0x77d850c4, Chip.display .ESP32C61, [], false, .ESP32C61⟩
  | .ESP32H2 =>
    ⟨0x332726f6, Chip.display .ESP32H2, [], false, .ESP32H2⟩
  | .ESP32P4 =>
    ⟨0x3d308e94, Chip.display .ESP32P4, [], false, .ESP32P4⟩
  | .ESP32S2 =>
    ⟨0xbfdd4eee, Chip.display .ESP32S2, [], false, .ESP32S2⟩
  | .ESP32S3 =>
    ⟨0xc47e5767, Chip.display .ESP32S3, [], false, .ESP32S3⟩
  | .ESP8266 =>
    ⟨0x7eab61ed, Chip.display .ESP8266, [], false, .ESP8266⟩
  | .FX2 =>
    ⟨0x5a18069b, Chip.display .FX2, [], false, .FX2⟩
  | .GD32F350 =>
    ⟨0x31d228c6, Chip.display .GD32F350, [], false, .GD32F350⟩
  | .GD32VF103 =>
    ⟨0x9af03e33, Chip.display .GD32VF103, [], false, .GD32VF103⟩
  | .KL32L2 =>
    ⟨0x7f83e793, Chip.display .KL32L2, [], false, .KL32L2⟩
  | .LPC55 =>
    ⟨0x2abc77ec, Chip.display .LPC55, [], false, .LPC55⟩
  | .M0SENSE =>
    ⟨0x11de784a, Chip.display .M0SENSE, [], false, .M0SENSE⟩
  | .MIMXRT10XX =>
    ⟨0x4fb2d5bd, Chip.display .MIMXRT10XX, [], false, .MIMXRT10XX⟩
  | .MaixPlayU4 =>
    ⟨0x4b684d71, Chip.display .MaixPlayU4, [], false, .MaixPlayU4⟩
  | .NRF52 =>
    ⟨0x1b57745f, Chip.display .NRF52, [], false, .NRF52⟩
  | .NRF52832xxAA =>
    ⟨0x72721d4e, Chip.display .NRF52832xxAA, [], false, .NRF52832xxAA⟩
  | .NRF52832xxAB =>
    ⟨0x6f752678, Chip.display .NRF52832xxAB, [], false, .NRF52832xxAB⟩
  | .NRF52833 =>
    ⟨0x621e937a, Chip.display .NRF52833, [], false, .NRF52833⟩
  | .NRF52840 =>
    ⟨0xada52840, Chip.display .NRF52840, [], true, .NRF52840⟩
  | .RA4M1 =>
    ⟨0x7be8976d, Chip.display .RA4M1, [], false, .RA4M1⟩
  | .RP2040 =>
    ⟨0xe48bff56, Chip.display .RP2040, [], true, .RP2040⟩
  | .Rp2350ArmNs =>
    ⟨0xe48bff5b, Chip.display .Rp2350ArmNs, [], false, .Rp2350ArmNs⟩
  | .Rp2350ArmS =>
    ⟨0xe48bff59, Chip.display .Rp2350ArmS, [], false, .Rp2350ArmS⟩
  | .Rp2350Riscv =>
    ⟨0xe48bff5a, Chip.display .Rp2350Riscv, [], false, .Rp2350Riscv⟩
  | .Rp2xxxAbsolute =>
    ⟨0xe48bff57, Chip.display .Rp2xxxAbsolute, [], false, .Rp2xxxAbsolute⟩
  | .Rp2xxxData =>
    ⟨0xe48bff58, Chip.display .Rp2xxxData, [], false, .Rp2xxxData⟩
  | .RTL8710A =>
    ⟨0x9fffd543, Chip.display .RTL8710A, [], false, .RTL8710A⟩
  | .RTL8710B =>
    ⟨0x22e0d6fc, Chip.display .RTL8710B, [], false, .RTL8710B⟩
  | .RTL8720C =>
    ⟨0xe08f7564, Chip.display .RTL8720C, [], false, .RTL8720C⟩
  | .RTL8720D =>
    ⟨0x3379CFE2, Chip.display .RTL8720D, [], false, .RTL8720D⟩
  | .RZA1LU =>
    ⟨0x9517422f, Chip.display .RZA1LU, [], false, .RZA1LU⟩
  | .SAMD21 =>
    ⟨0x68ed2b88, Chip.display .SAMD21, [], false, .SAMD21⟩
  | .SAMD51 =>
    ⟨0x55114460, Chip.display .SAMD51, [], false, .SAMD51⟩
  | .SAML21 =>
    ⟨0x1851780a, Chip.display .SAML21, [], false, .SAML21⟩
  | .STM32F0 =>
    ⟨0x647824b6, Chip.display .STM32F0, [], false, .STM32F0⟩
  | .STM32F1 =>
    ⟨0x5ee21072, Chip.display .STM32F1, [], false, .STM32F1⟩
  | .STM32F2 =>
    ⟨0x5d1a0a2e, Chip.display .STM32F2, [], false, .STM32F2⟩
  | .STM32F3 =>
    ⟨0x6b846188, Chip.display .STM32F3, [], false, .STM32F3⟩
  | .STM32F4 =>
    ⟨0x57755a57, Chip.display .STM32F4, [], false, .STM32F4⟩
  | .STM32F407 =>
    ⟨0x6d0922fa, Chip.display .STM32F407, [], false, .STM32F407⟩
  | .STM32F407VG =>
    ⟨0x8fb060fe, Chip.display .STM32F407VG, [], false, .STM32F407VG⟩
  | .STM32F411xC =>
    ⟨0x06d1097b, Chip.display .STM32F411xC, [], false, .STM32F411xC⟩
  | .STM32F411xE =>
    ⟨0x2dc309c5, Chip.display .STM32F411xE, [], false, .STM32F411xE⟩
  | .STM32F7 =>
    ⟨0x53b80f00, Chip.display .STM32F7, [], false, .STM32F7⟩
  | .STM32G0 =>
    ⟨0x300f5633, Chip.display .STM32G0, [], false, .STM32G0⟩
  | .STM32G4 =>
    ⟨0x4c71240a, Chip.display .STM32G4, [], false, .STM32G4⟩
  | .STM32H7 =>
    ⟨0x6db66082, Chip.display .STM32H7, [], false, .STM32H7⟩
  | .STM32L0 =>
    ⟨0x202e3a91, Chip.display .STM32L0, [], false, .STM32L0⟩
  | .STM32L1 =>
    ⟨0x1e1f432d, Chip.display .STM32L1, [], false, .STM32L1⟩
  | .STM32L4 =>
    ⟨0x00ff6919, Chip.display .STM32L4, [], false, .STM32L4⟩
  | .STM32L5 =>
    ⟨0x04240bdf, Chip.display .STM32L5, [], false, .STM32L5⟩
  | .STM32WB =>
    ⟨0x70d16653, Chip.display .STM32WB, [], false, .STM32WB⟩
  | .STM32WL =>
    ⟨0x21460ff0, Chip.display .STM32WL, [], false, .STM32WL⟩
  | .XR809 =>
    ⟨0x51e903a8, Chip.display .XR809, [], false, .XR809⟩

/-- The `[matrix]` section fields read by the embedded functions
(`rmk_config::KeyboardTomlConfig`). -/
structure MatrixConfig where
  row2col : Bool
deriving DecidableEq, Repr

/-- One side of the `[split]` section (only `central.matrix` is read). -/
structure SplitBoardConfig where
  matrix : MatrixConfig
deriving DecidableEq, Repr

/-- The `[split]` section fields read by the embedded functions. -/
structure SplitConfig where
  central : SplitBoardConfig
deriving DecidableEq, Repr

/-- The `[keyboard]` section fields read by the embedded functions. -/
structure KeyboardConfig where
  name : String
  board : Option Board
  chip : Option Chip
  firmware_format : FirmwareFormat
deriving DecidableEq, Repr

/-- The parsed `keyboard.toml` document, restricted to the fields the
embedded functions read. -/
structure KeyboardTomlConfig where
  keyboard : KeyboardConfig
  matrix : Option MatrixConfig
  split : Option SplitConfig
deriving DecidableEq, Repr

/-- `ProjectInfo` from `rmkit/src/keyboard_toml.rs`. -/
structure ProjectInfo where
  project_name : String
  target_dir : String
  remote_folder : String
  chip : Chip
  row2col : Bool
deriving DecidableEq, Repr

/-- Outcome of a computation that may also terminate the process
(`process::exit`). -/
inductive ParseOutcome (α : Type) where
  | ok (val : α)
  | err (msg : String)
  | exited (code : Nat)
deriving DecidableEq, Repr

/-- The Rust `name.replace(" ", "_")`, specialised to its single-character
pattern: each space character becomes an underscore.  (Defined by structural
recursion over the character data so that it evaluates by kernel reduction.) -/
def replace_spaces (s : String) : String :=
  ⟨s.data.map fun ch => if ch = ' ' then '_' else ch⟩

/-- Error message of check 1 (neither board nor chip). -/
def missing_chip_msg : String :=
  "Either \x27board\x27 or \x27chip\x27 must be specified in keyboard.toml"

/-- Error message of check 2 (board and chip disagree); `{board:?}` and
`{chip:?}` are Rust Debug renderings, and the source string has no closing
quote after the board name. -/
def conflicting_chip_msg (board : Board) (chip : Chip) : String :=
  "The board \x27" ++ board.debug ++ " usually uses the chip \x27"
    ++ (get_chip board).debug ++ "\x27, but you specified the chip \x27" ++ chip.debug
    ++ "\x27. Consider removing the board config from keyboard.toml."

/-- Error message of check 3 (neither matrix nor split). -/
def missing_matrix_msg : String :=
  "Either \x27matrix\x27 or \x27split\x27 section must be specified in keyboard.toml"

/-- Error message of check 4 (both matrix and split). -/
def conflicting_matrix_msg : String :=
  "\x27matrix\x27 and \x27split\x27 cannot both be specified in keyboard.toml"

/-- The chip-resolution match of `parse_keyboard_toml`
(lines 47–66 of `rmkit/src/keyboard_toml.rs`). -/
def resolve_chip (k : KeyboardConfig) : Except String Chip :=
  match k.board, k.chip with
  | none, none => .error missing_chip_msg
  | some board, none => .ok (get_chip board)
  | none, some chip => .ok chip
  | some board, some chip =>
    let board_chip := get_chip board
    if chip = board_chip then .ok chip
    else .error (conflicting_chip_msg board chip)

/-- The matrix-type match of `parse_keyboard_toml`
(lines 78–87 of `rmkit/src/keyboard_toml.rs`). -/
def resolve_matrix_type (matrix : Option MatrixConfig) (split : Option SplitConfig) :
    Except String String :=
  match matrix, split with
  | none, none => .error missing_matrix_msg
  | none, some _ => .ok "split"
  | some _, none => .ok "normal"
  | some _, some _ => .error conflicting_matrix_msg

/-- `parse_keyboard_toml` from `rmkit/src/keyboard_toml.rs`.  The TOML file is
already parsed into `cfg` (`read_keyboard_toml_config` is file I/O plus serde).
`dir_ok` models whether `fs::create_dir_all` succeeds; the first component of
the result records every attempted directory creation, and the Rust
`process::exit(1)` on directory-creation failure becomes `.exited 1`. -/
def parse_keyboard_toml (cfg : KeyboardTomlConfig) (target_dir : Option String)
    (dir_ok : Bool) : List String × ParseOutcome ProjectInfo :=
  let project_name := replace_spaces cfg.keyboard.name
  let target_dir := match target_dir with
    | none => project_name
    | some t => t
  let project_dir := target_dir
  let trace := ["create_dir_all " ++ project_dir]
  if !dir_ok then (trace, .exited 1)
  else
    match resolve_chip cfg.keyboard with
    | .error e => (trace, .err e)
    | .ok chip =>
      let row2col := match cfg.matrix with
        | some m => m.row2col
        | none =>
          match cfg.split with
          | some s => s.central.matrix.row2col
          | none => false
      match resolve_matrix_type cfg.matrix cfg.split with
      | .error e => (trace, .err e)
      | .ok matrix_type =>
        let chip_name := chip.display
        let folder := if matrix_type = "split"
          then chip_name ++ "_" ++ matrix_type
          else chip_name
        (trace, .ok ⟨project_name, project_dir, folder, chip, row2col⟩)

/-- The target kinds distinguished by `cargo_build` (it only ever compares a
kind against `TargetKind::Bin`). -/
inductive TargetKind where
  | bin
  | lib
  | example
  | other
deriving DecidableEq, Repr

/-- A `CompilerArtifact` message, restricted to the fields `cargo_build` and
`internal_build_rmk` read.  `package_in_workspace` models
`metadata.workspace_members.contains(&artifact.package_id)`. -/
structure Artifact where
  package_in_workspace : Bool
  target_name : String
  target_kind : List TargetKind
  executable : Option String
  filenames : List String
deriving DecidableEq, Repr

/-- A cargo JSON message, restricted to the variants `cargo_build` inspects. -/
inductive Message where
  | compilerArtifact (artifact : Artifact)
  | compilerMessage (rendered : Option String)
  | other
deriving DecidableEq, Repr

/-- The selection condition applied to each `CompilerArtifact` message in the
`cargo_build` loop (lines 54–58 of `rmkit/src/cargo_build.rs`). -/
def artifact_matches (bin : Option String) (a : Artifact) : Bool :=
  (a.package_in_workspace && a.target_name == bin.getD "no binary"
      && a.executable.isSome)
    || a.target_kind.any (fun s => s == TargetKind.bin)

/-- The message-processing loop of `cargo_build`, with `acc` playing the role
of the mutable `target_artifact`. -/
def cargo_build_loop (bin : Option String) :
    List Message → Option Artifact → Except String Artifact
  | [], none => .error "Could not determine the wanted artifact"
  | [], some a => .ok a
  | .compilerArtifact a :: rest, acc =>
    if artifact_matches bin a then
      match acc with
      | some _ => .error "Can only have one matching artifact but found several"
      | none => cargo_build_loop bin rest (some a)
    else cargo_build_loop bin rest acc
  | .compilerMessage _ :: rest, acc => cargo_build_loop bin rest acc
  | .other :: rest, acc => cargo_build_loop bin rest acc

/-- `cargo_build` from `rmkit/src/cargo_build.rs`.  `build_ok` models the
child process exit status (checked before the message loop runs) and `msgs`
the drained JSON message stream. -/
def cargo_build (bin : Option String) (build_ok : Bool) (msgs : List Message) :
    Except String Artifact :=
  if !build_ok then .error "Failed to parse crate metadata"
  else cargo_build_loop bin msgs none

/-- The artifacts among a message stream. -/
def artifacts_of (msgs : List Message) : List Artifact :=
  msgs.filterMap fun m =>
    match m with
    | .compilerArtifact a => some a
    | _ => none

/-- One recorded `llvm-objcopy` invocation: input file, `-O` format selector,
output path. -/
structure ObjcopyInvocation where
  input : String
  selector : String
  output : String
deriving DecidableEq, Repr

/-- `cargo_objcopy` from `rmkit/src/cargo_objcopy.rs`.  `conv_ok` models the
`llvm-objcopy` exit status; the first component records the invocations made
(empty when the function errors out before spawning the converter). -/
def cargo_objcopy (file : String) (out_name : String) (conv_ok : Bool) :
    FirmwareFormat → List ObjcopyInvocation × Except String String
  | .Bin =>
    let output_path := out_name ++ ".hex"
    ([⟨file, "ihex", output_path⟩],
      if conv_ok then .ok output_path else .error "Failed to convert to ihex")
  | .Hex =>
    let output_path := out_name ++ ".bin"
    ([⟨file, "binary", output_path⟩],
      if conv_ok then .ok output_path else .error "Failed to convert to binary")
  | .Elf | .Uf2 => ([], .error "Firmware Format not supported in objcopy")

/-- One step of the build pipeline as recorded in the effect trace. -/
inductive BuildEffect where
  | cargoBuild (binary : Option String)
  | objcopy (inv : ObjcopyInvocation)
  | hexToUf2 (input : String) (output : String) (chip : Option ChipInfo)
deriving DecidableEq, Repr

/-- The kind of a pipeline effect, forgetting its arguments. -/
inductive BuildEffectKind where
  | cargoBuildK
  | objcopyK
  | hexToUf2K
deriving DecidableEq, Repr

def BuildEffect.kind : BuildEffect → BuildEffectKind
  | .cargoBuild _ => .cargoBuildK
  | .objcopy _ => .objcopyK
  | .hexToUf2 _ _ _ => .hexToUf2K

/-- The `objcopy_format` selection of `internal_build_rmk`
(lines 49–53 of `rmkit/src/rmk_build.rs`). -/
def objcopy_format : FirmwareFormat → Option FirmwareFormat
  | .Bin => some .Bin
  | .Elf => none
  | .Hex | .Uf2 => some .Hex

/-- `internal_build_rmk` from `rmkit/src/rmk_build.rs`, given the artifact the
cargo build produced (the code panics unless the build succeeds, so a
successful build is assumed).  Returns the computed output `name`, the trace
of external invocations, and the result. -/
def internal_build_rmk (chip_info : ChipInfo) (cfg : KeyboardTomlConfig)
    (binary : Option String) (artifact : Artifact) (conv_ok : Bool) :
    String × List BuildEffect × Except String Unit :=
  let file := match artifact.executable with
    | some val => val
    | none => artifact.filenames.headD ""
  let name := match binary with
    | some b => cfg.keyboard.name ++ "_" ++ b
    | none => cfg.keyboard.name
  match objcopy_format cfg.keyboard.firmware_format with
  | none => (name, [.cargoBuild binary], .ok ())
  | some fmt =>
    let r := cargo_objcopy file name conv_ok fmt
    match r.2 with
    | .error e => (name, .cargoBuild binary :: r.1.map .objcopy, .error e)
    | .ok firmware_file =>
      if cfg.keyboard.firmware_format = .Uf2 then
        let uf2_output := name ++ ".uf2"
        (name, .cargoBuild binary :: r.1.map .objcopy
          ++ [.hexToUf2 firmware_file uf2_output (some chip_info)], .ok ())
      else
        (name, .cargoBuild binary :: r.1.map .objcopy, .ok ())

/-- Modelled from the spec: `KeyboardTomlConfig::get_chip_info` is defined in
the configuration crate (`config.rs`), which is not among the provided
sources.  Per §4.2 the effective chip is the explicit `chip`, or the chip
implied by `board`, with a conflict when both are present and disagree, and
the chip metadata is the registry entry for the effective chip. -/
def get_chip_info (k : KeyboardConfig) : Except String ChipInfo :=
  match k.board, k.chip with
  | none, none =>
    .error "Either \x27board\x27 or \x27chip\x27 must be specified in keyboard.toml"
  | some board, none => .ok (get_info (get_chip board))
  | none, some chip => .ok (get_info chip)
  | some board, some chip =>
    if chip = get_chip board then .ok (get_info chip)
    else .error "Conflicting chip specification"

/-- `build_rmk` from `rmkit/src/rmk_build.rs`, given the chip metadata and the
artifact each cargo build produces.  Returns the pipeline effect trace and the
result; when the central pass fails its error propagates and the peripheral
pass never runs. -/
def build_rmk (cfg : KeyboardTomlConfig) (chip_info : ChipInfo)
    (artifacts : Option String → Artifact) (conv_ok : Bool) :
    List BuildEffect × Except String Unit :=
  if cfg.split.isSome then
    let r1 := internal_build_rmk chip_info cfg (some "central")
      (artifacts (some "central")) conv_ok
    match r1.2.2 with
    | .error e => (r1.2.1, .error e)
    | .ok _ =>
      let r2 := internal_build_rmk chip_info cfg (some "peripheral")
        (artifacts (some "peripheral")) conv_ok
      (r1.2.1 ++ r2.2.1, r2.2.2)
  else
    let r := internal_build_rmk chip_info cfg none (artifacts none) conv_ok
    (r.2.1, r.2.2)

/-- The sequence of requested cargo-build targets in an effect trace. -/
def build_targets (effs : List BuildEffect) : List (Option String) :=
  effs.filterMap fun e =>
    match e with
    | .cargoBuild b => some b
    | _ => none

/-! ### Helper lemmas -/

/-- Every chip is enumerated in `chip_variants`. -/
theorem chip_variants_complete : ∀ c : Chip, c ∈ chip_variants := by
  intro c
  cases c <;> decide

/-- The family identifiers of the registry table, in enumeration order, have
no duplicates. -/
theorem family_id_nodup :
    ((chip_variants.map fun c => (get_info c).family_id)).Nodup := by
  decide

/-! ### Claims -/

/-- C4: for every pair of distinct chip identifiers enumerated in the
registry, the `family_id` values returned by `get_info` are distinct. -/
theorem get_info_family_id_injective :
    ∀ c1 c2 : Chip, c1 ≠ c2 →
      (get_info c1).family_id ≠ (get_info c2).family_id := by
  intro c1 c2 hne heq
  exact hne (List.inj_on_of_nodup_map family_id_nodup
    (chip_variants_complete c1) (chip_variants_complete c2) heq)

/-- Witness for C4 at two concrete chips. -/
theorem get_info_family_id_injective_witness :
    Chip.NRF52840 ≠ Chip.RP2040
      ∧ (get_info .NRF52840).family_id ≠ (get_info .RP2040).family_id :=
  ⟨by decide, get_info_family_id_injective .NRF52840 .RP2040 (by decide)⟩

/-- C9: `cargo_objcopy` with format `Bin` invokes the converter with selector
"ihex" and returns `{out_name}.hex`; with `Hex` it uses "binary" and returns
`{out_name}.bin`; with `Elf` or `Uf2` it errors without any invocation. -/
theorem cargo_objcopy_format_selection :
    ∀ (file out_name : String) (b : Bool),
      cargo_objcopy file out_name true .Bin
          = ([⟨file, "ihex", out_name ++ ".hex"⟩], .ok (out_name ++ ".hex"))
        ∧ cargo_objcopy file out_name true .Hex
          = ([⟨file, "binary", out_name ++ ".bin"⟩], .ok (out_name ++ ".bin"))
        ∧ cargo_objcopy file out_name b .Elf
          = ([], .error "Firmware Format not supported in objcopy")
        ∧ cargo_objcopy file out_name b .Uf2
          = ([], .error "Firmware Format not supported in objcopy") := by
  intro file out_name b
  exact ⟨rfl, rfl, rfl, rfl⟩

/-- C10: the lowercase display form of every `Chip` variant parses back to the
same chip. -/
theorem chip_display_roundtrip :
    ∀ c : Chip, Chip.from_str (Chip.display c) = some c := by
  intro c
  cases c <;> rfl

/-- C1 counterexample: two configurations resolving to the same chip (with
identical registry metadata) run different conversion-stage sets when their
keyboard.toml `firmware_format` fields differ, so the stages are not
determined by the chip's registry metadata. -/
theorem conversion_stages_not_chip_determined :
    ((internal_build_rmk (get_info .NRF52840)
        ⟨⟨"kb", none, some .NRF52840, .Elf⟩, none, none⟩ none
        ⟨true, "kb", [.bin], some "x", []⟩ true).2.1).map BuildEffect.kind
      ≠ ((internal_build_rmk (get_info .NRF52840)
        ⟨⟨"kb", none, some .NRF52840, .Uf2⟩, none, none⟩ none
        ⟨true, "kb", [.bin], some "x", []⟩ true).2.1).map BuildEffect.kind := by
  decide

/-- C1 amended: which conversion stages run is determined by the
keyboard.toml `firmware_format` field (not by the chip registry metadata,
which never enters the selection): `Elf` runs no converter stage, `Bin` and
`Hex` run exactly the objcopy stage, and `Uf2` runs the objcopy stage
followed by the uf2 packaging stage (when the converter succeeds). -/
theorem conversion_stages_determined_by_firmware_format :
    ∀ (ci : ChipInfo) (cfg : KeyboardTomlConfig) (binary : Option String)
      (a : Artifact),
      ((internal_build_rmk ci cfg binary a true).2.1).map BuildEffect.kind
        = .cargoBuildK :: (match cfg.keyboard.firmware_format with
            | .Elf => []
            | .Bin => [.objcopyK]
            | .Hex => [.objcopyK]
            | .Uf2 => [.objcopyK, .hexToUf2K]) := by
  intro ci cfg binary a
  cases h : cfg.keyboard.firmware_format <;>
    simp [internal_build_rmk, objcopy_format, cargo_objcopy, h, BuildEffect.kind]

/-- Running the `cargo_build` message loop with an artifact already selected:
any further match is the ambiguity failure. -/
theorem cargo_build_loop_some_eq (bin : Option String) :
    ∀ (msgs : List Message) (a : Artifact),
      cargo_build_loop bin msgs (some a)
        = match (artifacts_of msgs).filter (artifact_matches bin) with
          | [] => .ok a
          | _ :: _ => .error "Can only have one matching artifact but found several" := by
  intro msgs
  induction msgs with
  | nil => intro a; rfl
  | cons m rest ih =>
    intro a
    cases m with
    | compilerArtifact a' =>
      by_cases h : artifact_matches bin a' = true
      · simp [cargo_build_loop, h, artifacts_of, List.filterMap_cons, List.filter_cons]
      · simp [cargo_build_loop, h, artifacts_of, List.filterMap_cons, List.filter_cons, ih]
    | compilerMessage r =>
      simp [cargo_build_loop, artifacts_of, List.filterMap_cons, ih]
    | other =>
      simp [cargo_build_loop, artifacts_of, List.filterMap_cons, ih]

/-- The `cargo_build` message loop, started empty, returns the unique matching
artifact, the no-artifact error on zero matches, or the ambiguity error on two
or more. -/
theorem cargo_build_loop_none_eq (bin : Option String) :
    ∀ msgs : List Message,
      cargo_build_loop bin msgs none
        = match (artifacts_of msgs).filter (artifact_matches bin) with
          | [] => .error "Could not determine the wanted artifact"
          | [a] => .ok a
          | _ :: _ :: _ => .error "Can only have one matching artifact but found several" := by
  intro msgs
  induction msgs with
  | nil => rfl
  | cons m rest ih =>
    cases m with
    | compilerArtifact a' =>
      have hA : artifacts_of (Message.compilerArtifact a' :: rest)
          = a' :: artifacts_of rest := rfl
      by_cases h : artifact_matches bin a' = true
      · have hL : cargo_build_loop bin (Message.compilerArtifact a' :: rest) none
            = cargo_build_loop bin rest (some a') := by
          simp [cargo_build_loop, h]
        rw [hL, cargo_build_loop_some_eq, hA, List.filter_cons]
        simp only [h, if_true]
        cases hf : (artifacts_of rest).filter (artifact_matches bin) with
        | nil => rfl
        | cons x xs => rfl
      · have hL : cargo_build_loop bin (Message.compilerArtifact a' :: rest) none
            = cargo_build_loop bin rest none := by
          simp [cargo_build_loop, h]
        rw [hL, ih, hA, List.filter_cons]
        simp [h]
    | compilerMessage r =>
      have hL : cargo_build_loop bin (Message.compilerMessage r :: rest) none
          = cargo_build_loop bin rest none := rfl
      have hA : artifacts_of (Message.compilerMessage r :: rest)
          = artifacts_of rest := rfl
      rw [hL, ih, hA]
    | other =>
      have hL : cargo_build_loop bin (Message.other :: rest) none
          = cargo_build_loop bin rest none := rfl
      have hA : artifacts_of (Message.other :: rest) = artifacts_of rest := rfl
      rw [hL, ih, hA]

/-- C5 counterexample: with the explicit target name "foo" requested, an
artifact produced for the different target "bar" is selected, because its
target kind lists an executable binary. -/
theorem cargo_build_selects_foreign_target :
    cargo_build (some "foo") true
        [.compilerArtifact ⟨false, "bar", [.bin], none, []⟩]
      = .ok ⟨false, "bar", [.bin], none, []⟩
    ∧ ("bar" : String) ≠ "foo" := by
  constructor
  · rfl
  · decide

/-- C5 amended: `cargo_build` selects artifact `a` exactly when `a` is the
unique artifact in the message stream satisfying the match condition: a
workspace-member artifact named after the requested target (placeholder
"no binary" when none was requested) with a direct executable, or — with no
regard to the requested target name — any artifact whose target kind includes
the executable-binary kind. -/
theorem cargo_build_selection_rule :
    ∀ (bin : Option String) (msgs : List Message) (a : Artifact),
      cargo_build bin true msgs = .ok a
        ↔ (artifacts_of msgs).filter (artifact_matches bin) = [a] := by
  intro bin msgs a
  show cargo_build_loop bin msgs none = .ok a ↔ _
  rw [cargo_build_loop_none_eq]
  cases hf : (artifacts_of msgs).filter (artifact_matches bin) with
  | nil => simp
  | cons x xs => cases xs <;> simp

/-- C6: when no produced artifact matches the selection rule, `cargo_build`
fails with the no-artifact error, and when more than one matches it fails
with the ambiguity error rather than silently picking one. -/
theorem cargo_build_zero_or_many_matches :
    ∀ (bin : Option String) (msgs : List Message),
      ((artifacts_of msgs).filter (artifact_matches bin) = [] →
        cargo_build bin true msgs = .error "Could not determine the wanted artifact")
      ∧ (2 ≤ ((artifacts_of msgs).filter (artifact_matches bin)).length →
        cargo_build bin true msgs
          = .error "Can only have one matching artifact but found several") := by
  intro bin msgs
  constructor
  · intro h
    show cargo_build_loop bin msgs none = _
    rw [cargo_build_loop_none_eq, h]
  · intro h
    show cargo_build_loop bin msgs none = _
    rw [cargo_build_loop_none_eq]
    cases hf : (artifacts_of msgs).filter (artifact_matches bin) with
    | nil => rw [hf] at h; simp at h
    | cons x xs =>
      cases xs with
      | nil => rw [hf] at h; simp at h
      | cons y ys => rfl

/-- Witness for C6: an empty message stream yields the no-artifact error, and
two executable-binary artifacts with no requested target yield the ambiguity
error. -/
theorem cargo_build_zero_or_many_matches_witness :
    cargo_build none true [] = .error "Could not determine the wanted artifact"
    ∧ cargo_build none true
        [.compilerArtifact ⟨true, "a", [.bin], some "pa", []⟩,
         .compilerArtifact ⟨true, "b", [.bin], some "pb", []⟩]
      = .error "Can only have one matching artifact but found several" :=
  ⟨(cargo_build_zero_or_many_matches none []).1 (by decide),
   (cargo_build_zero_or_many_matches none
      [.compilerArtifact ⟨true, "a", [.bin], some "pa", []⟩,
       .compilerArtifact ⟨true, "b", [.bin], some "pb", []⟩]).2 (by decide)⟩

/-- The output name computed by `internal_build_rmk`: the keyboard name,
suffixed with `_{binary}` when a binary target was requested. -/
theorem internal_build_rmk_name (ci : ChipInfo) (cfg : KeyboardTomlConfig)
    (binary : Option String) (a : Artifact) (conv_ok : Bool) :
    (internal_build_rmk ci cfg binary a conv_ok).1
      = match binary with
        | some b => cfg.keyboard.name ++ "_" ++ b
        | none => cfg.keyboard.name := by
  cases h : cfg.keyboard.firmware_format <;> cases conv_ok <;>
    simp [internal_build_rmk, objcopy_format, cargo_objcopy, h]

/-- Each `internal_build_rmk` pass requests exactly one cargo build, for its
own binary target. -/
theorem internal_build_rmk_build_targets (ci : ChipInfo) (cfg : KeyboardTomlConfig)
    (binary : Option String) (a : Artifact) (conv_ok : Bool) :
    build_targets (internal_build_rmk ci cfg binary a conv_ok).2.1 = [binary] := by
  cases h : cfg.keyboard.firmware_format <;> cases conv_ok <;>
    simp [internal_build_rmk, objcopy_format, cargo_objcopy, h, build_targets]

/-- C7: a split description runs the build-and-convert sequence exactly twice,
central first then peripheral, naming the outputs `{name}_central` and
`{name}_peripheral`; a unibody description runs it once, named `{name}`. -/
theorem build_rmk_split_passes :
    ∀ (cfg : KeyboardTomlConfig) (ci : ChipInfo)
      (arts : Option String → Artifact) (conv_ok : Bool),
      (cfg.split.isSome = true →
        (internal_build_rmk ci cfg (some "central") (arts (some "central")) conv_ok).1
            = cfg.keyboard.name ++ "_central"
        ∧ (internal_build_rmk ci cfg (some "peripheral") (arts (some "peripheral")) conv_ok).1
            = cfg.keyboard.name ++ "_peripheral"
        ∧ ((build_rmk cfg ci arts conv_ok).2 = .ok () →
            build_targets (build_rmk cfg ci arts conv_ok).1
              = [some "central", some "peripheral"]))
      ∧ (cfg.split = none →
        (internal_build_rmk ci cfg none (arts none) conv_ok).1 = cfg.keyboard.name
        ∧ build_targets (build_rmk cfg ci arts conv_ok).1 = [none]) := by
  intro cfg ci arts conv_ok
  constructor
  · intro hsplit
    refine ⟨?_, ?_, ?_⟩
    · rw [internal_build_rmk_name]
      show cfg.keyboard.name ++ "_" ++ "central" = cfg.keyboard.name ++ "_central"
      rw [String.append_assoc]
      congr 1
    · rw [internal_build_rmk_name]
      show cfg.keyboard.name ++ "_" ++ "peripheral"
        = cfg.keyboard.name ++ "_peripheral"
      rw [String.append_assoc]
      congr 1
    · intro hok
      unfold build_rmk at hok ⊢
      rw [hsplit] at hok ⊢
      simp only [if_true] at hok ⊢
      cases h1 : (internal_build_rmk ci cfg (some "central")
          (arts (some "central")) conv_ok).2.2 with
      | error e => rw [h1] at hok; simp at hok
      | ok u =>
        show build_targets
          ((internal_build_rmk ci cfg (some "central")
              (arts (some "central")) conv_ok).2.1
            ++ (internal_build_rmk ci cfg (some "peripheral")
              (arts (some "peripheral")) conv_ok).2.1)
          = [some "central", some "peripheral"]
        show List.filterMap _
          ((internal_build_rmk ci cfg (some "central")
              (arts (some "central")) conv_ok).2.1
            ++ (internal_build_rmk ci cfg (some "peripheral")
              (arts (some "peripheral")) conv_ok).2.1)
          = [some "central", some "peripheral"]
        rw [List.filterMap_append]
        have t1 := internal_build_rmk_build_targets ci cfg (some "central")
          (arts (some "central")) conv_ok
        have t2 := internal_build_rmk_build_targets ci cfg (some "peripheral")
          (arts (some "peripheral")) conv_ok
        rw [show ∀ l, List.filterMap (fun e =>
            match e with
            | BuildEffect.cargoBuild b => some b
            | _ => none) l = build_targets l from fun _ => rfl,
          show ∀ l, List.filterMap (fun e =>
            match e with
            | BuildEffect.cargoBuild b => some b
            | _ => none) l = build_targets l from fun _ => rfl,
          t1, t2]
        rfl
  · intro hsplit
    refine ⟨?_, ?_⟩
    · rw [internal_build_rmk_name]
    · unfold build_rmk
      rw [hsplit]
      simp only [Option.isSome_none, Bool.false_eq_true, if_false]
      exact internal_build_rmk_build_targets ci cfg none (arts none) conv_ok

/-- C8: with final firmware format Uf2, the pipeline runs exactly two
conversion stages after the cargo build — the objcopy conversion feeding the
uf2 packager — and passes the resolved chip's registry metadata (hence its
family identifier) to the packager. -/
theorem uf2_packaging_tags_family_id :
    ∀ (cfg : KeyboardTomlConfig) (ci : ChipInfo) (binary : Option String)
      (a : Artifact),
      get_chip_info cfg.keyboard = .ok ci →
      cfg.keyboard.firmware_format = .Uf2 →
      (∃ inv output,
        (internal_build_rmk ci cfg binary a true).2.1
          = [.cargoBuild binary, .objcopy inv, .hexToUf2 inv.output output (some ci)])
      ∧ (∃ c : Chip, ci = get_info c
          ∧ (cfg.keyboard.chip = some c
            ∨ (∃ b, cfg.keyboard.board = some b ∧ c = get_chip b))) := by
  intro cfg ci binary a hci hfmt
  constructor
  · refine ⟨⟨(match a.executable with | some v => v | none => a.filenames.headD ""),
      "binary",
      (match binary with
        | some b => cfg.keyboard.name ++ "_" ++ b
        | none => cfg.keyboard.name) ++ ".bin"⟩,
      (match binary with
        | some b => cfg.keyboard.name ++ "_" ++ b
        | none => cfg.keyboard.name) ++ ".uf2", ?_⟩
    simp [internal_build_rmk, objcopy_format, cargo_objcopy, hfmt]
  · cases hb : cfg.keyboard.board with
    | none =>
      cases hc : cfg.keyboard.chip with
      | none => rw [get_chip_info, hb, hc] at hci; simp at hci
      | some c =>
        rw [get_chip_info] at hci
        rw [hb, hc] at hci
        simp at hci
        exact ⟨c, hci.symm, Or.inl rfl⟩
    | some b =>
      cases hc : cfg.keyboard.chip with
      | none =>
        rw [get_chip_info] at hci
        rw [hb, hc] at hci
        simp at hci
        exact ⟨get_chip b, hci.symm, Or.inr ⟨b, rfl, rfl⟩⟩
      | some c =>
        rw [get_chip_info] at hci
        rw [hb, hc] at hci
        by_cases hcb : c = get_chip b
        · simp [hcb] at hci
          exact ⟨c, by rw [← hci, hcb], Or.inl rfl⟩
        · simp [hcb] at hci

/-- Witness for C8 at a concrete Uf2 configuration for the RP2040. -/
theorem uf2_packaging_tags_family_id_witness :
    (∃ inv output,
      (internal_build_rmk (get_info .RP2040)
          ⟨⟨"kb", none, some .RP2040, .Uf2⟩, none, none⟩ none
          ⟨true, "kb", [.bin], some "x", []⟩ true).2.1
        = [.cargoBuild none, .objcopy inv,
           .hexToUf2 inv.output output (some (get_info .RP2040))])
    ∧ (∃ c : Chip, get_info .RP2040 = get_info c
        ∧ (some Chip.RP2040 = some c
          ∨ (∃ b, (none : Option Board) = some b ∧ c = get_chip b))) :=
  uf2_packaging_tags_family_id ⟨⟨"kb", none, some .RP2040, .Uf2⟩, none, none⟩
    (get_info .RP2040) none ⟨true, "kb", [.bin], some "x", []⟩ rfl rfl

/-- C2 counterexample: a description whose board and explicitly given chip
agree does not always resolve successfully — with no matrix or split section
it fails on the matrix check — so the claim's success half does not hold of
every such description. -/
theorem parse_keyboard_toml_agreeing_chip_can_fail :
    get_chip .NiceNano = .NRF52840
    ∧ (parse_keyboard_toml ⟨⟨"kb", some .NiceNano, some .NRF52840, .Uf2⟩, none, none⟩
        none true).2 = .err missing_matrix_msg :=
  ⟨rfl, rfl⟩

/-- C2 amended: provided directory creation succeeds, a description giving
both a board and an agreeing explicit chip resolves to that chip whenever
exactly one of the matrix/split sections is present, and a disagreeing chip
makes resolution fail — before any matrix validation — with the message
naming the board, the chip implied by the board, and the given chip. -/
theorem parse_keyboard_toml_board_chip_agreement :
    ∀ (cfg : KeyboardTomlConfig) (tdir : Option String) (b : Board) (c : Chip),
      cfg.keyboard.board = some b → cfg.keyboard.chip = some c →
      ((c = get_chip b →
        (cfg.matrix.isSome ∧ cfg.split = none) ∨ (cfg.matrix = none ∧ cfg.split.isSome) →
        ∃ pi : ProjectInfo, (parse_keyboard_toml cfg tdir true).2 = .ok pi ∧ pi.chip = c)
      ∧ (c ≠ get_chip b →
        (parse_keyboard_toml cfg tdir true).2 = .err (conflicting_chip_msg b c))) := by
  intro cfg tdir b c hb hc
  constructor
  · intro hceq hm
    unfold parse_keyboard_toml
    rcases hm with ⟨hm1, hm2⟩ | ⟨hm1, hm2⟩
    · obtain ⟨m, hm⟩ := Option.isSome_iff_exists.mp hm1
      simp [resolve_chip, hb, hc, hceq, hm, hm2, resolve_matrix_type]
    · obtain ⟨s, hs⟩ := Option.isSome_iff_exists.mp hm2
      simp [resolve_chip, hb, hc, hceq, hm1, hs, resolve_matrix_type]
  · intro hne
    unfold parse_keyboard_toml
    simp [resolve_chip, hb, hc, hne]

/-- Witness for C2 amended: the NiceNano board with its implied NRF52840 chip
resolves to that chip, and with the conflicting RP2040 chip it fails with the
conflict message. -/
theorem parse_keyboard_toml_board_chip_agreement_witness :
    (∃ pi : ProjectInfo,
      (parse_keyboard_toml
          ⟨⟨"kb", some .NiceNano, some .NRF52840, .Uf2⟩, some ⟨true⟩, none⟩
          none true).2 = .ok pi ∧ pi.chip = .NRF52840)
    ∧ (parse_keyboard_toml
          ⟨⟨"kb", some .NiceNano, some .RP2040, .Uf2⟩, some ⟨true⟩, none⟩
          none true).2 = .err (conflicting_chip_msg .NiceNano .RP2040) :=
  ⟨(parse_keyboard_toml_board_chip_agreement
      ⟨⟨"kb", some .NiceNano, some .NRF52840, .Uf2⟩, some ⟨true⟩, none⟩
      none .NiceNano .NRF52840 rfl rfl).1 (by decide) (Or.inl ⟨rfl, rfl⟩),
   (parse_keyboard_toml_board_chip_agreement
      ⟨⟨"kb", some .NiceNano, some .RP2040, .Uf2⟩, some ⟨true⟩, none⟩
      none .NiceNano .RP2040 rfl rfl).2 (by decide)⟩

/-- The trace of `parse_keyboard_toml` always consists of exactly the one
directory-creation attempt, whatever the configuration and outcome. -/
theorem parse_keyboard_toml_trace (cfg : KeyboardTomlConfig) (tdir : Option String)
    (d : Bool) :
    (parse_keyboard_toml cfg tdir d).1
      = ["create_dir_all " ++ tdir.getD (replace_spaces cfg.keyboard.name)] := by
  unfold parse_keyboard_toml
  cases d
  · cases tdir <;> rfl
  · cases tdir <;>
      cases h1 : resolve_chip cfg.keyboard <;>
        first
          | rfl
          | (cases h2 : resolve_matrix_type cfg.matrix cfg.split <;> rfl)

/-- C3 counterexample: a description failing the very first validation check
(neither board nor chip given) still has its project directory created, so
directory creation is not deferred until after the four checks. -/
theorem parse_keyboard_toml_dir_created_despite_invalid_config :
    (parse_keyboard_toml ⟨⟨"kb", none, none, .Uf2⟩, none, none⟩ none true)
      = (["create_dir_all kb"], .err missing_chip_msg)
    ∧ (["create_dir_all kb"] : List String) ≠ [] :=
  ⟨by decide, by decide⟩

/-- C3 amended: `parse_keyboard_toml` attempts target-directory creation
first — exiting with code 1 on failure regardless of the description's
validity, and attempting the creation even for invalid descriptions — and
only then checks, in order: missing board/chip, conflicting board/chip,
missing matrix/split, conflicting matrix/split. -/
theorem parse_keyboard_toml_check_order :
    ∀ (cfg : KeyboardTomlConfig) (tdir : Option String),
      ((parse_keyboard_toml cfg tdir false).2 = .exited 1)
      ∧ (∀ d : Bool, (parse_keyboard_toml cfg tdir d).1
          = ["create_dir_all " ++ tdir.getD (replace_spaces cfg.keyboard.name)])
      ∧ (cfg.keyboard.board = none → cfg.keyboard.chip = none →
          (parse_keyboard_toml cfg tdir true).2 = .err missing_chip_msg)
      ∧ (∀ b c, cfg.keyboard.board = some b → cfg.keyboard.chip = some c →
          c ≠ get_chip b →
          (parse_keyboard_toml cfg tdir true).2 = .err (conflicting_chip_msg b c))
      ∧ (∀ ch, resolve_chip cfg.keyboard = .ok ch → cfg.matrix = none →
          cfg.split = none →
          (parse_keyboard_toml cfg tdir true).2 = .err missing_matrix_msg)
      ∧ (∀ ch m s, resolve_chip cfg.keyboard = .ok ch → cfg.matrix = some m →
          cfg.split = some s →
          (parse_keyboard_toml cfg tdir true).2 = .err conflicting_matrix_msg) := by
  intro cfg tdir
  refine ⟨?_, ?_, ?_, ?_, ?_, ?_⟩
  · unfold parse_keyboard_toml; rfl
  · intro d; exact parse_keyboard_toml_trace cfg tdir d
  · intro hb hc
    unfold parse_keyboard_toml
    simp [resolve_chip, hb, hc]
  · intro b c hb hc hne
    unfold parse_keyboard_toml
    simp [resolve_chip, hb, hc, hne]
  · intro ch hch hm hs
    unfold parse_keyboard_toml
    simp [hch, resolve_matrix_type, hm, hs]
  · intro ch m s hch hm hs
    unfold parse_keyboard_toml
    simp [hch, resolve_matrix_type, hm, hs]

/-- Witness for C3 amended at concrete descriptions exercising the exit path
and each of the four checks. -/
theorem parse_keyboard_toml_check_order_witness :
    (parse_keyboard_toml ⟨⟨"kb", none, none, .Uf2⟩, none, none⟩ none false).2 = .exited 1
    ∧ (parse_keyboard_toml ⟨⟨"kb", none, none, .Uf2⟩, none, none⟩ none true).2
        = .err missing_chip_msg
    ∧ (parse_keyboard_toml ⟨⟨"kb", some .NiceNano, some .RP2040, .Uf2⟩, none, none⟩
        none true).2 = .err (conflicting_chip_msg .NiceNano .RP2040)
    ∧ (parse_keyboard_toml ⟨⟨"kb", none, some .RP2040, .Uf2⟩, none, none⟩
        none true).2 = .err missing_matrix_msg
    ∧ (parse_keyboard_toml
        ⟨⟨"kb", none, some .RP2040, .Uf2⟩, some ⟨true⟩, some ⟨⟨⟨false⟩⟩⟩⟩
        none true).2 = .err conflicting_matrix_msg :=
  ⟨(parse_keyboard_toml_check_order ⟨⟨"kb", none, none, .Uf2⟩, none, none⟩ none).1,
   (parse_keyboard_toml_check_order ⟨⟨"kb", none, none, .Uf2⟩, none, none⟩
      none).2.2.1 rfl rfl,
   (parse_keyboard_toml_check_order
      ⟨⟨"kb", some .NiceNano, some .RP2040, .Uf2⟩, none, none⟩
      none).2.2.2.1 .NiceNano .RP2040 rfl rfl (by decide),
   (parse_keyboard_toml_check_order ⟨⟨"kb", none, some .RP2040, .Uf2⟩, none, none⟩
      none).2.2.2.2.1 .RP2040 rfl rfl rfl,
   (parse_keyboard_toml_check_order
      ⟨⟨"kb", none, some .RP2040, .Uf2⟩, some ⟨true⟩, some ⟨⟨⟨false⟩⟩⟩⟩
      none).2.2.2.2.2 .RP2040 ⟨true⟩ ⟨⟨⟨false⟩⟩⟩ rfl rfl rfl⟩

/-- Witness for C7 at a concrete split description and a concrete unibody
description. -/
theorem build_rmk_split_passes_witness :
    ((internal_build_rmk (get_info .NRF52840)
        ⟨⟨"kb", none, some .NRF52840, .Uf2⟩, none, some ⟨⟨⟨false⟩⟩⟩⟩ (some "central")
        ⟨true, "kb", [.bin], some "x", []⟩ true).1 = "kb_central")
    ∧ ((internal_build_rmk (get_info .NRF52840)
        ⟨⟨"kb", none, some .NRF52840, .Uf2⟩, none, some ⟨⟨⟨false⟩⟩⟩⟩ (some "peripheral")
        ⟨true, "kb", [.bin], some "x", []⟩ true).1 = "kb_peripheral")
    ∧ (build_targets (build_rmk
        ⟨⟨"kb", none, some .NRF52840, .Uf2⟩, none, some ⟨⟨⟨false⟩⟩⟩⟩ (get_info .NRF52840)
        (fun _ => ⟨true, "kb", [.bin], some "x", []⟩) true).1
        = [some "central", some "peripheral"])
    ∧ (build_targets (build_rmk
        ⟨⟨"kb", none, some .NRF52840, .Uf2⟩, none, none⟩ (get_info .NRF52840)
        (fun _ => ⟨true, "kb", [.bin], some "x", []⟩) true).1 = [none]) :=
  ⟨((build_rmk_split_passes ⟨⟨"kb", none, some .NRF52840, .Uf2⟩, none, some ⟨⟨⟨false⟩⟩⟩⟩
      (get_info .NRF52840) (fun _ => ⟨true, "kb", [.bin], some "x", []⟩) true).1 rfl).1,
   ((build_rmk_split_passes ⟨⟨"kb", none, some .NRF52840, .Uf2⟩, none, some ⟨⟨⟨false⟩⟩⟩⟩
      (get_info .NRF52840) (fun _ => ⟨true, "kb", [.bin], some "x", []⟩) true).1 rfl).2.1,
   ((build_rmk_split_passes ⟨⟨"kb", none, some .NRF52840, .Uf2⟩, none, some ⟨⟨⟨false⟩⟩⟩⟩
      (get_info .NRF52840) (fun _ => ⟨true, "kb", [.bin], some "x", []⟩) true).1 rfl).2.2 rfl,
   ((build_rmk_split_passes ⟨⟨"kb", none, some .NRF52840, .Uf2⟩, none, none⟩
      (get_info .NRF52840) (fun _ => ⟨true, "kb", [.bin], some "x", []⟩) true).2 rfl).2⟩
